import Mathlib

/-
Verification of the open-agent-platform proxy and credential-issuance core.

Shallow embedding of:
  - apps/web/src/lib/jwt-utils.ts                      (token cache and issuer)
  - apps/web/src/app/api/oap_mcp/proxy-request.ts      (MCP proxy and the
    multi-tenant LangGraph proxy route handlers)
  - apps/web/src/app/api/langconnect/[...path]/route.ts (LangConnect forwarders)

JavaScript objects and Map values are modelled as association lists over
String keys; `Date.now()` is an explicit `nowMs : Nat` parameter; environment
variables are `Option String` parameters; thrown exceptions are `Except`.
The downstream `fetch` call and its response handling are external to the
claims checked here, so each route handler is modelled up to the outbound
call: its outcome is either an early structured response (status, message)
or the fully assembled outbound request data.
-/

namespace OAP

/-- JSON claim values appearing in token payloads (strings and numbers). -/
inductive JValue where
  | str : String → JValue
  | num : Nat → JValue
deriving DecidableEq

/-- JavaScript truthiness-based defaulting `a || b` for strings: the empty
string is falsy, so it falls through to the default. -/
def jsOr (a b : String) : String := if a = ("") then b else a

/-- Lookup in a JavaScript object / Map modelled as an association list:
the first binding for the key (keys are unique by construction of
`jsMapSet`). -/
def jsMapGet {α : Type} (m : List (String × α)) (k : String) : Option α :=
  (m.find? (fun q => q.1 == k)).map (fun q => q.2)

/-- Assignment to a JavaScript object field / `Map.set`: overwrite the
existing binding in place if the key is present, otherwise append. -/
def jsMapSet {α : Type} (m : List (String × α)) (k : String) (v : α) :
    List (String × α) :=
  if m.any (fun q => q.1 == k) then
    m.map (fun q => if q.1 == k then (k, v) else q)
  else
    m ++ [(k, v)]

/-- Payload object literal of `generateJWTToken` (jwt-utils.ts lines 46-52):
`\x7b user_id, email, iat, exp, ...additionalClaims \x7d`.  The spread comes
last, so it is a sequence of field assignments performed after the four fixed
fields are set. -/
def buildPayload (userId email : String) (now expiresAt : Nat)
    (additionalClaims : List (String × JValue)) : List (String × JValue) :=
  additionalClaims.foldl (fun o kv => jsMapSet o kv.1 kv.2)
    [(("user_id"), JValue.str userId), (("email"), JValue.str email),
     (("iat"), JValue.num now), (("exp"), JValue.num expiresAt)]

/-- Modelled from the jose library interface used at jwt-utils.ts lines 57-61:
`new SignJWT(payload).setIssuedAt(now).setExpirationTime(expiresAt)` sets the
`iat` and then the `exp` claim of the payload after construction, overriding
any value those keys had in the constructed payload object.  This is the
claim set that actually gets signed. -/
def tokenPayload (userId email : String) (now : Nat)
    (additionalClaims : List (String × JValue)) : List (String × JValue) :=
  jsMapSet
    (jsMapSet (buildPayload userId email now (now + 86400) additionalClaims)
      ("iat") (JValue.num now))
    ("exp") (JValue.num (now + 86400))

def serializeJValue : JValue → String
  | JValue.str s => ("(") ++ s ++ (")")
  | JValue.num n => toString n

def serializeClaims (o : List (String × JValue)) : String :=
  String.intercalate (",") (o.map (fun q => q.1 ++ (":") ++ serializeJValue q.2))

/-- Modelled from the jose library: a deterministic stand-in for the compact
JWS serialization — the produced string is a function of the protected header
(algorithm), the final payload and the signing key, exactly the inputs of
`SignJWT.sign`. -/
def signJWT (secretKey algorithm : String) (payload : List (String × JValue)) :
    String :=
  ("alg=") ++ algorithm ++ (".") ++ serializeClaims payload ++ (".sig=") ++ secretKey

/-- One entry of the module-level `tokenCache` of jwt-utils.ts: the signed
token string and its expiry instant in milliseconds. -/
structure CacheEntry where
  token : String
  expiresAt : Nat
deriving DecidableEq

/-- The process-wide `tokenCache : Map<string, \x7b token, expiresAt \x7d>`,
modelled as an association list manipulated through `jsMapGet`/`jsMapSet`. -/
abbrev TokenCache := List (String × CacheEntry)

/-- Miss path of `generateJWTToken` (jwt-utils.ts lines 41-69): compute
`now = Math.floor(Date.now() / 1000)`, build and sign the payload, and store
the token in the cache under the composite key with expiry
`(now + 86400) * 1000` milliseconds.  Returns the token and the new cache. -/
def freshTokenResult (secretKey algorithm : String) (nowMs : Nat)
    (userId email : String) (additionalClaims : List (String × JValue))
    (cache : TokenCache) : String × TokenCache :=
  let now := nowMs / 1000
  let token := signJWT secretKey algorithm (tokenPayload userId email now additionalClaims)
  (token, jsMapSet cache (userId ++ (":") ++ email) ⟨token, (now + 86400) * 1000⟩)

/-- Embedding of `generateJWTToken` (jwt-utils.ts lines 21-70).  The
environment variables `JWT_SECRET_KEY` and `JWT_ALGORITHM` are explicit
`Option String` parameters, `Date.now()` is `nowMs`, and the module-level
cache is threaded explicitly.  A falsy (absent or empty) secret key throws;
a cached entry is returned unchanged while `cached.expiresAt > Date.now()`. -/
def generateJWTToken (secretKeyEnv algorithmEnv : Option String) (nowMs : Nat)
    (userId email : String) (additionalClaims : List (String × JValue))
    (cache : TokenCache) : Except String (String × TokenCache) :=
  if secretKeyEnv.getD ("") = ("") then
    Except.error ("JWT_SECRET_KEY environment variable is not set")
  else
    match jsMapGet cache (userId ++ (":") ++ email) with
    | some cached =>
      if nowMs < cached.expiresAt then
        Except.ok (cached.token, cache)
      else
        Except.ok (freshTokenResult (secretKeyEnv.getD ("")) (jsOr (algorithmEnv.getD ("")) ("HS256"))
          nowMs userId email additionalClaims cache)
    | none =>
      Except.ok (freshTokenResult (secretKeyEnv.getD ("")) (jsOr (algorithmEnv.getD ("")) ("HS256"))
        nowMs userId email additionalClaims cache)

/-- Session user as consumed from the Supabase session: `user.id`,
`user.email` and `user.user_metadata?.name`, with absent string fields
modelled as the (falsy) empty string. -/
structure SessionUser where
  id : String
  email : String
  name : String
deriving DecidableEq

/-- Embedding of `getSupabaseUser` (identical in proxy-request.ts and the
authenticated LangConnect route): when `NEXT_PUBLIC_SUPABASE_URL` or
`NEXT_PUBLIC_SUPABASE_ANON_KEY` is falsy the function returns null without
consulting the session; otherwise it returns `session?.user || null`.  The
externally supplied session (and the catch-all that converts a thrown lookup
error to null) is the `session : Option SessionUser` parameter. -/
def getSupabaseUser (supabaseUrl supabaseKey : Option String)
    (session : Option SessionUser) : Option SessionUser :=
  if supabaseUrl.getD ("") = ("") ∨ supabaseKey.getD ("") = ("") then none
  else session

/-- Email argument passed to the issuer by every authenticated route:
`user.email || "unknown@example.com"`. -/
def routeEmail (u : SessionUser) : String :=
  jsOr u.email ("unknown@example.com")

/-- Extra-claims argument passed to the issuer by every authenticated route:
`\x7b name: user.user_metadata?.name || user.email \x7d`. -/
def routeExtraClaims (u : SessionUser) : List (String × JValue) :=
  [(("name"), JValue.str (jsOr u.name u.email))]

/-- JavaScript `s.startsWith(pre)`, computed on the character sequence. -/
def strStartsWith (s pre : String) : Bool :=
  pre.data.isPrefixOf s.data

/-- JavaScript `s.slice(n)` for nonnegative `n`: drop the first `n`
characters. -/
def strDrop (s : String) (n : Nat) : String :=
  String.mk (s.data.drop n)

/-- Parsed WHATWG URL restricted to the components this code manipulates.
`query` is stored without its leading question mark (a URL with no query has
`query = ""`). -/
structure ModelURL where
  scheme : String
  host : String
  pathname : String
  query : String
deriving DecidableEq

/-- Modelled from the WHATWG URL standard: the `pathname` setter reparses its
value in the path state, where `?` and `#` are not delimiters but get
percent-encoded into the path (they belong to the path percent-encode set). -/
def encodePathChar (c : Char) : String :=
  if c = ('?') then ("%3F") else if c = ('#') then ("%23") else String.singleton c

def encodePath (s : String) : String :=
  String.join (s.data.map encodePathChar)

/-- Modelled from the WHATWG URL standard: assigning `url.pathname = v`
percent-encodes path-set characters of `v` and serializes the path with a
leading slash; the query component is left untouched. -/
def setPathname (u : ModelURL) (v : String) : ModelURL :=
  ⟨u.scheme, u.host,
    (if strStartsWith (encodePath v) ("/") then encodePath v else ("/") ++ encodePath v),
    u.query⟩

/-- Modelled from the WHATWG URL standard: assigning `url.search = v` strips
one leading question mark and stores the rest as the query component. -/
def setSearch (u : ModelURL) (v : String) : ModelURL :=
  ⟨u.scheme, u.host, u.pathname,
    (if strStartsWith v ("?") then strDrop v 1 else v)⟩

/-- Serialization of the query component as returned by `url.search`: empty
when there is no query, otherwise the query preceded by a question mark. -/
def urlSearchString (u : ModelURL) : String :=
  if u.query = ("") then ("") else ("?") ++ u.query

/-- Serialization `url.toString()` of the modelled components. -/
def urlToString (u : ModelURL) : String :=
  u.scheme ++ ("://") ++ u.host ++ u.pathname ++ urlSearchString u

/-- JavaScript `s.endsWith("/")`. -/
def endsWithSlash (s : String) : Bool :=
  s.data.getLast? = some ('/')

/-- JavaScript `s.slice(0, -1)`: the string without its last character. -/
def dropLast1 (s : String) : String :=
  String.mk s.data.dropLast

/-- Embedding of `buildTargetUrl` (route.ts lines 9-25, textually identical
in both LangConnect route variants).  `apiBase` is the parsed
`LANGCONNECT_API_URL ?? NEXT_PUBLIC_RAG_API_URL` (None when neither is set,
which throws), `path` the residual path segments, `reqSearch` the inbound
search string of the request URL. -/
def buildTargetUrl (apiBase : Option ModelURL) (reqSearch : String)
    (path : List String) : Except String ModelURL :=
  match apiBase with
  | none => Except.error ("LANGCONNECT_API_URL is not configured")
  | some base =>
    Except.ok (setSearch
      (setPathname base
        (String.intercalate ("/")
          (([if endsWithSlash base.pathname then dropLast1 base.pathname else base.pathname,
             String.intercalate ("/") path]).filter (fun s => s ≠ ("")))))
      reqSearch)

/-- Anchored literal rewrite `url.pathname.replace(/^\/api\/oap_mcp/, "")`
of proxy-request.ts line 65. -/
def stripApiOapMcp (pathname : String) : String :=
  if strStartsWith pathname ("/api/oap_mcp") then strDrop pathname 12
  else pathname

/-- Target URL construction of the MCP proxy (proxy-request.ts lines 64-70):
the entire template `` `${pathname}${slash}mcp${path}${url.search}` `` —
including the inbound search string — is assigned to `targetUrlObj.pathname`. -/
def mcpTargetUrl (base : ModelURL) (reqPathname reqSearch : String) : ModelURL :=
  setPathname base
    (base.pathname ++ (if endsWithSlash base.pathname then ("") else ("/")) ++
      ("mcp") ++ stripApiOapMcp reqPathname ++ reqSearch)

/-- Body selection of the MCP proxy (proxy-request.ts lines 117-122): the
body is forwarded unless the method is GET or HEAD. -/
def mcpForwardBody (method : String) (inBody : Option String) : Option String :=
  if method ≠ ("GET") ∧ method ≠ ("HEAD") then inBody else none

/-- Body selection of both LangConnect forwarders (route.ts lines 44-47 and
178-181): the body is forwarded unless the method is GET, HEAD or OPTIONS. -/
def langconnectForwardBody (method : String) (inBody : Option String) :
    Option String :=
  if ¬ (([("GET"), ("HEAD"), ("OPTIONS")] : List String).contains method) then
    inBody
  else none

/-- Environment configuration read by the MCP proxy module. -/
structure McpEnv where
  mcpServerUrl : Option ModelURL
  supabaseUrl : Option String
  supabaseKey : Option String
  jwtSecretKey : Option String
  jwtAlgorithm : Option String
deriving DecidableEq

/-- Outcome of the MCP proxy up to the downstream `fetch`: an early
structured response, or the assembled outbound call (target URL, bearer
token, body, updated token cache). -/
inductive McpOutcome where
  | err : Nat → String → McpOutcome
  | forward : String → String → Option String → TokenCache → McpOutcome
deriving DecidableEq

/-- Embedding of `proxyRequest` (proxy-request.ts lines 51-130, up to the
outbound `fetch`): missing `MCP_SERVER_URL` is a 500; an absent session is a
401 `Authentication required`; a token-issuance error is a 500
`Failed to generate authentication token`; otherwise the request is forwarded
with `Authorization: Bearer <token>` and the method-dependent body. -/
def proxyRequest (env : McpEnv) (method reqPathname reqSearch : String)
    (inBody : Option String) (session : Option SessionUser) (nowMs : Nat)
    (cache : TokenCache) : McpOutcome :=
  match env.mcpServerUrl with
  | none => McpOutcome.err 500 ("MCP_SERVER_URL environment variable is not set. Please set it to the URL of your MCP server, or NEXT_PUBLIC_MCP_SERVER_URL if you do not want to use the proxy route.")
  | some baseUrl =>
    match getSupabaseUser env.supabaseUrl env.supabaseKey session with
    | some user =>
      match generateJWTToken env.jwtSecretKey env.jwtAlgorithm nowMs user.id
          (routeEmail user) (routeExtraClaims user) cache with
      | Except.ok (token, cache2) =>
        McpOutcome.forward (urlToString (mcpTargetUrl baseUrl reqPathname reqSearch))
          (("Bearer ") ++ token) (mcpForwardBody method inBody) cache2
      | Except.error _ => McpOutcome.err 500 ("Failed to generate authentication token")
    | none => McpOutcome.err 401 ("Authentication required")

/-- Body component of a forwarded MCP outcome (None when no downstream call
was made). -/
def mcpForwardedBody : McpOutcome → Option (Option String)
  | McpOutcome.forward _ _ b _ => some b
  | McpOutcome.err _ _ => none

/-- Outcome of a LangConnect forwarder up to the downstream `fetch`. -/
inductive LcOutcome where
  | resp : Nat → String → LcOutcome
  | forward : String → String → Option String → TokenCache → LcOutcome
deriving DecidableEq

/-- Embedding of the authenticated LangConnect `handler` (route.ts lines
131-203, up to the outbound `fetch`): a `buildTargetUrl` error is a 500 with
the thrown message; an absent session is a 401 `Authentication required`; a
token-issuance error is a 500 `Failed to generate authentication token`;
otherwise the request is forwarded with the bearer token and the
method-dependent body.  All seven exported methods delegate to this handler
unchanged. -/
def langconnectHandler (apiBase : Option ModelURL)
    (supabaseUrl supabaseKey jwtSecretKey jwtAlgorithm : Option String)
    (method reqSearch : String) (path : List String) (inBody : Option String)
    (session : Option SessionUser) (nowMs : Nat) (cache : TokenCache) :
    LcOutcome :=
  match buildTargetUrl apiBase reqSearch path with
  | Except.error msg => LcOutcome.resp 500 msg
  | Except.ok targetUrl =>
    match getSupabaseUser supabaseUrl supabaseKey session with
    | some user =>
      match generateJWTToken jwtSecretKey jwtAlgorithm nowMs user.id
          (routeEmail user) (routeExtraClaims user) cache with
      | Except.ok (token, cache2) =>
        LcOutcome.forward (urlToString targetUrl) (("Bearer ") ++ token)
          (langconnectForwardBody method inBody) cache2
      | Except.error _ => LcOutcome.resp 500 ("Failed to generate authentication token")
    | none => LcOutcome.resp 401 ("Authentication required")

/-- Body component of a forwarded LangConnect outcome. -/
def lcForwardedBody : LcOutcome → Option (Option String)
  | LcOutcome.forward _ _ b _ => some b
  | LcOutcome.resp _ _ => none

def isHexDigit (c : Char) : Bool :=
  c.isDigit || (decide (('a') ≤ c) && decide (c ≤ ('f'))) ||
    (decide (('A') ≤ c) && decide (c ≤ ('F')))

def uuidCharOk (i : Nat) (c : Char) : Bool :=
  if i = 8 ∨ i = 13 ∨ i = 18 ∨ i = 23 then c = ('-')
  else if i = 14 then decide (('1') ≤ c) && decide (c ≤ ('5'))
  else if i = 19 then
    c = ('8') || c = ('9') || c = ('a') || c = ('b') || c = ('A') || c = ('B')
  else isHexDigit c

/-- Modelled from the `validate` function of the uuid package: the string matches the
RFC 4122 regex (8-4-4-4-12 hex groups, version 1-5, variant 8/9/a/b,
case-insensitive) or is the NIL UUID. -/
def isValidUUID (s : String) : Bool :=
  (s.length = 36 && (List.range 36).all (fun i => uuidCharOk i (s.data.getD i (' ')))) ||
    s = ("00000000-0000-0000-0000-000000000000")

/-- One record of the external deployment registry (`getDeployments()`). -/
structure Deployment where
  id : String
  deploymentUrl : String
deriving DecidableEq

/-- Embedding of `getDeploymentUrl` (proxy-request.ts lines 294-312): the
first path segment must validate as a UUID, then an exact id match is looked
up in the registry; any failure yields null.  An empty segment list means
`_path[0]` is undefined, which `validate` rejects. -/
def getDeploymentUrl (registry : List Deployment) (path : List String) :
    Option (String × String) :=
  match path with
  | [] => none
  | deploymentId :: _ =>
    if isValidUUID deploymentId then
      match registry.find? (fun d => d.id == deploymentId) with
      | some d => some ((("langgraph/proxy/") ++ deploymentId), d.deploymentUrl)
      | none => none
    else none

/-- Embedding of `isProxyRouteEnabled` (proxy-request.ts lines 222-224):
`process.env.NEXT_PUBLIC_USE_LANGSMITH_AUTH === "true"`. -/
def isProxyRouteEnabled (useLangsmithAuthEnv : Option String) : Bool :=
  useLangsmithAuthEnv = some ("true")

/-- Embedding of `addJWTAuthHeader` (proxy-request.ts lines 262-285): null
when no session user is found, and also null when `generateJWTToken` throws
(the catch block returns null); otherwise the bearer header value and the
updated cache. -/
def addJWTAuthHeader (supabaseUrl supabaseKey jwtSecretKey jwtAlgorithm : Option String)
    (session : Option SessionUser) (nowMs : Nat) (cache : TokenCache) :
    Option (String × TokenCache) :=
  match getSupabaseUser supabaseUrl supabaseKey session with
  | none => none
  | some user =>
    match generateJWTToken jwtSecretKey jwtAlgorithm nowMs user.id
        (routeEmail user) (routeExtraClaims user) cache with
    | Except.ok (token, cache2) => some ((("Bearer ") ++ token), cache2)
    | Except.error _ => none

/-- Outcome of a multi-tenant LangGraph route handler: an early response, or
the passthrough invocation (base route, deployment URL, bearer header,
updated cache). -/
inductive RouteOutcome where
  | resp : Nat → String → RouteOutcome
  | passthrough : String → String → String → TokenCache → RouteOutcome
deriving DecidableEq

/-- Embedding of the multi-tenant LangGraph `GET` handler (proxy-request.ts
lines 314-345); `POST`, `PUT`, `PATCH` and `DELETE` are textually identical.
Order of checks as in the source: deployment resolution (404), feature flag
(403), authentication header (401), then passthrough. -/
def langgraphGET (useLangsmithAuthEnv : Option String)
    (registry : List Deployment) (path : List String)
    (supabaseUrl supabaseKey jwtSecretKey jwtAlgorithm : Option String)
    (session : Option SessionUser) (nowMs : Nat) (cache : TokenCache) :
    RouteOutcome :=
  match getDeploymentUrl registry path with
  | none => RouteOutcome.resp 404 ("Deployment not found")
  | some (baseRoute, url) =>
    if ¬ isProxyRouteEnabled useLangsmithAuthEnv then
      RouteOutcome.resp 403 ("Proxy route not enabled")
    else
      match addJWTAuthHeader supabaseUrl supabaseKey jwtSecretKey jwtAlgorithm
          session nowMs cache with
      | none => RouteOutcome.resp 401 ("Authentication required")
      | some (authHeader, cache2) =>
        RouteOutcome.passthrough baseRoute url authHeader cache2

/- ------------------------------------------------------------------ -/
/- Theorems.                                                           -/
/- ------------------------------------------------------------------ -/

theorem jsMapGet_map_overwrite {α : Type} (m : List (String × α)) (k : String)
    (v : α) (h : m.any (fun q => q.1 == k) = true) :
    jsMapGet (m.map (fun q => if q.1 == k then (k, v) else q)) k = some v := by
  induction m with
  | nil => simp at h
  | cons p m ih =>
    cases hp : (p.1 == k) with
    | true => simp [jsMapGet, List.find?, hp]
    | false =>
      have hm : m.any (fun q => q.1 == k) = true := by
        simpa [List.any_cons, hp] using h
      simpa [jsMapGet, List.find?, hp] using ih hm

theorem jsMapGet_append_single {α : Type} (m : List (String × α)) (k : String)
    (v : α) (h : m.any (fun q => q.1 == k) = false) :
    jsMapGet (m ++ [(k, v)]) k = some v := by
  induction m with
  | nil => simp [jsMapGet, List.find?]
  | cons p m ih =>
    have hp : (p.1 == k) = false := by
      cases hpe : (p.1 == k) with
      | true => rw [List.any_cons, hpe] at h; simp at h
      | false => rfl
    have hm : m.any (fun q => q.1 == k) = false := by
      simpa [List.any_cons, hp] using h
    simpa [jsMapGet, List.find?, hp] using ih hm

/-- Writing a key then reading it back yields the written value. -/
theorem jsMapGet_set_same {α : Type} (m : List (String × α)) (k : String)
    (v : α) : jsMapGet (jsMapSet m k v) k = some v := by
  cases hany : m.any (fun q => q.1 == k) with
  | true => rw [jsMapSet, if_pos hany]; exact jsMapGet_map_overwrite m k v hany
  | false =>
    rw [jsMapSet, if_neg (by simp [hany])]
    exact jsMapGet_append_single m k v hany

theorem jsMapGet_map_overwrite_ne {α : Type} (m : List (String × α))
    (k : String) (v : α) (k2 : String) (hne : k2 ≠ k) :
    jsMapGet (m.map (fun q => if q.1 == k then (k, v) else q)) k2 =
      jsMapGet m k2 := by
  have hkk2 : (k == k2) = false := by simp [Ne.symm hne]
  induction m with
  | nil => rfl
  | cons p m ih =>
    cases hp : (p.1 == k) with
    | true =>
      have hpk : p.1 = k := by simpa using hp
      have hp2 : (p.1 == k2) = false := by simp [hpk, Ne.symm hne]
      simpa [jsMapGet, List.find?, hp, hkk2, hp2] using ih
    | false =>
      cases hp2 : (p.1 == k2) with
      | true => simp [jsMapGet, List.find?, hp, hp2]
      | false => simpa [jsMapGet, List.find?, hp, hp2] using ih

theorem jsMapGet_append_single_ne {α : Type} (m : List (String × α))
    (k : String) (v : α) (k2 : String) (hne : k2 ≠ k) :
    jsMapGet (m ++ [(k, v)]) k2 = jsMapGet m k2 := by
  have hkk2 : (k == k2) = false := by simp [Ne.symm hne]
  induction m with
  | nil => simp [jsMapGet, List.find?, hkk2]
  | cons p m ih =>
    cases hp2 : (p.1 == k2) with
    | true => simp [jsMapGet, List.find?, hp2]
    | false => simpa [jsMapGet, List.find?, hp2] using ih

/-- Writing one key leaves every other key unchanged. -/
theorem jsMapGet_set_ne {α : Type} (m : List (String × α)) (k : String)
    (v : α) (k2 : String) (hne : k2 ≠ k) :
    jsMapGet (jsMapSet m k v) k2 = jsMapGet m k2 := by
  cases hany : m.any (fun q => q.1 == k) with
  | true => rw [jsMapSet, if_pos hany]; exact jsMapGet_map_overwrite_ne m k v k2 hne
  | false =>
    rw [jsMapSet, if_neg (by simp [hany])]
    exact jsMapGet_append_single_ne m k v k2 hne

/-- Folding a sequence of field assignments whose keys all differ from `k`
leaves the binding of `k` unchanged. -/
theorem jsMapGet_foldl_set_ne {α : Type} (extra : List (String × α))
    (k : String) (h : ∀ kv ∈ extra, kv.1 ≠ k) (m : List (String × α)) :
    jsMapGet (extra.foldl (fun o kv => jsMapSet o kv.1 kv.2) m) k =
      jsMapGet m k := by
  induction extra generalizing m with
  | nil => rfl
  | cons kv extra ih =>
    rw [List.foldl_cons, ih (fun x hx => h x (List.mem_cons_of_mem _ hx))]
    exact jsMapGet_set_ne m kv.1 kv.2 k (Ne.symm (h kv (List.mem_cons_self _ _)))

theorem generateJWTToken_hit (secretKeyEnv algorithmEnv : Option String)
    (nowMs : Nat) (userId email : String)
    (additionalClaims : List (String × JValue)) (cache : TokenCache)
    (c : CacheEntry) (hk : secretKeyEnv.getD ("") ≠ (""))
    (hc : jsMapGet cache (userId ++ (":") ++ email) = some c)
    (hv : nowMs < c.expiresAt) :
    generateJWTToken secretKeyEnv algorithmEnv nowMs userId email
      additionalClaims cache = Except.ok (c.token, cache) := by
  simp [generateJWTToken, hk, hc, hv]

theorem generateJWTToken_ok_key {secretKeyEnv algorithmEnv : Option String}
    {nowMs : Nat} {userId email : String}
    {additionalClaims : List (String × JValue)} {cache : TokenCache}
    {r : String × TokenCache}
    (h : generateJWTToken secretKeyEnv algorithmEnv nowMs userId email
      additionalClaims cache = Except.ok r) :
    secretKeyEnv.getD ("") ≠ ("") := by
  intro hk
  simp [generateJWTToken, hk] at h

/-- After any successful call the cache binds the composite key to an entry
whose token is exactly the returned token. -/
theorem generateJWTToken_ok_cache {secretKeyEnv algorithmEnv : Option String}
    {nowMs : Nat} {userId email : String}
    {additionalClaims : List (String × JValue)} {cache : TokenCache}
    {tok : String} {cache2 : TokenCache}
    (h : generateJWTToken secretKeyEnv algorithmEnv nowMs userId email
      additionalClaims cache = Except.ok (tok, cache2)) :
    ∃ c : CacheEntry,
      jsMapGet cache2 (userId ++ (":") ++ email) = some c ∧ c.token = tok := by
  by_cases hk : secretKeyEnv.getD ("") = ("")
  · simp [generateJWTToken, hk] at h
  · cases hc : jsMapGet cache (userId ++ (":") ++ email) with
    | some cached =>
      by_cases hv : nowMs < cached.expiresAt
      · simp [generateJWTToken, hk, hc, hv] at h
        exact ⟨cached, by rw [← h.2]; exact hc, h.1⟩
      · simp [generateJWTToken, hk, hc, hv, freshTokenResult] at h
        refine ⟨⟨tok, (nowMs / 1000 + 86400) * 1000⟩, ?_, rfl⟩
        rw [← h.2, ← h.1]
        exact jsMapGet_set_same _ _ _
    | none =>
      simp [generateJWTToken, hk, hc, freshTokenResult] at h
      refine ⟨⟨tok, (nowMs / 1000 + 86400) * 1000⟩, ?_, rfl⟩
      rw [← h.2, ← h.1]
      exact jsMapGet_set_same _ _ _

/-- C1 counterexample: with `additionalClaims = \x7b user_id: "evil" \x7d`
the `user_id` claim of the signed payload is `"evil"`, not the
`"u1"` — the spread `...additionalClaims` comes after the fixed fields, so a
caller-supplied `user_id` key overrides the standard claim. -/
theorem tokenPayload_extraClaims_override_counterexample :
    jsMapGet (tokenPayload ("u1") ("e@x") 100 [(("user_id"), JValue.str ("evil"))])
      ("user_id") = some (JValue.str ("evil")) ∧
    some (JValue.str ("evil")) ≠ some (JValue.str ("u1")) := by
  decide

/-- C1 (amended): on a cache miss the `iat` and `exp` of the signed payload always
equal the clock-derived values (jose re-sets them after the payload object is
built), for every `additionalClaims`; but `user_id` and `email` equal the
identity values only when `additionalClaims` contains neither key — a
caller-supplied binding for either key overrides the standard field. -/
theorem tokenPayload_standard_claims (userId email : String) (now : Nat)
    (additionalClaims : List (String × JValue)) :
    jsMapGet (tokenPayload userId email now additionalClaims) ("iat") =
      some (JValue.num now) ∧
    jsMapGet (tokenPayload userId email now additionalClaims) ("exp") =
      some (JValue.num (now + 86400)) ∧
    ((∀ kv ∈ additionalClaims, kv.1 ≠ ("user_id")) →
      jsMapGet (tokenPayload userId email now additionalClaims) ("user_id") =
        some (JValue.str userId)) ∧
    ((∀ kv ∈ additionalClaims, kv.1 ≠ ("email")) →
      jsMapGet (tokenPayload userId email now additionalClaims) ("email") =
        some (JValue.str email)) := by
  refine ⟨?_, ?_, ?_, ?_⟩
  · rw [tokenPayload, jsMapGet_set_ne _ _ _ _ (by decide), jsMapGet_set_same]
  · rw [tokenPayload, jsMapGet_set_same]
  · intro h
    rw [tokenPayload, jsMapGet_set_ne _ _ _ _ (by decide),
      jsMapGet_set_ne _ _ _ _ (by decide), buildPayload,
      jsMapGet_foldl_set_ne _ _ h]
    simp [jsMapGet, List.find?]
  · intro h
    rw [tokenPayload, jsMapGet_set_ne _ _ _ _ (by decide),
      jsMapGet_set_ne _ _ _ _ (by decide), buildPayload,
      jsMapGet_foldl_set_ne _ _ h]
    simp [jsMapGet, List.find?]

theorem tokenPayload_standard_claims_witness :
    jsMapGet (tokenPayload ("u1") ("e@x") 7 [(("name"), JValue.str ("N"))]) ("iat") =
      some (JValue.num 7) ∧
    jsMapGet (tokenPayload ("u1") ("e@x") 7 [(("name"), JValue.str ("N"))]) ("exp") =
      some (JValue.num (7 + 86400)) ∧
    jsMapGet (tokenPayload ("u1") ("e@x") 7 [(("name"), JValue.str ("N"))]) ("user_id") =
      some (JValue.str ("u1")) ∧
    jsMapGet (tokenPayload ("u1") ("e@x") 7 [(("name"), JValue.str ("N"))]) ("email") =
      some (JValue.str ("e@x")) := by
  obtain ⟨h1, h2, h3, h4⟩ :=
    tokenPayload_standard_claims ("u1") ("e@x") 7 [(("name"), JValue.str ("N"))]
  exact ⟨h1, h2, h3 (by decide), h4 (by decide)⟩

/-- C5: if a first call to `generateJWTToken` returns a token and at the time
of a second call for the same identity the expiry of the cached entry is strictly
in the future, the second call returns the byte-identical token string with
the cache unchanged (no re-signing), regardless of the
`additionalClaims`. -/
theorem generateJWTToken_second_call_cache_hit
    (secretKeyEnv algorithmEnv : Option String) (t1 t2 : Nat)
    (userId email : String) (extra1 extra2 : List (String × JValue))
    (cache : TokenCache) (tok : String) (cache2 : TokenCache) (c : CacheEntry)
    (h1 : generateJWTToken secretKeyEnv algorithmEnv t1 userId email extra1
      cache = Except.ok (tok, cache2))
    (hc : jsMapGet cache2 (userId ++ (":") ++ email) = some c)
    (hv : t2 < c.expiresAt) :
    generateJWTToken secretKeyEnv algorithmEnv t2 userId email extra2 cache2 =
      Except.ok (tok, cache2) := by
  obtain ⟨c0, hc0, htok⟩ := generateJWTToken_ok_cache h1
  have hcc : c0 = c := by
    rw [hc0] at hc
    exact (Option.some.injEq _ _).mp hc
  subst hcc
  have hit := generateJWTToken_hit secretKeyEnv algorithmEnv t2 userId email
    extra2 cache2 c0 (generateJWTToken_ok_key h1) hc0 hv
  rw [htok] at hit
  exact hit

theorem generateJWTToken_second_call_cache_hit_witness :
    generateJWTToken (some ("k")) none 1000 ("u1") ("u1@x.com")
      [(("name"), JValue.str ("Z"))]
      (jsMapSet [] ("u1:u1@x.com")
        ⟨signJWT ("k") ("HS256") (tokenPayload ("u1") ("u1@x.com") 0 []), 86400000⟩) =
    Except.ok
      (signJWT ("k") ("HS256") (tokenPayload ("u1") ("u1@x.com") 0 []),
       jsMapSet [] ("u1:u1@x.com")
         ⟨signJWT ("k") ("HS256") (tokenPayload ("u1") ("u1@x.com") 0 []), 86400000⟩) :=
  generateJWTToken_second_call_cache_hit (some ("k")) none 0 1000 ("u1")
    ("u1@x.com") [] [(("name"), JValue.str ("Z"))] []
    (signJWT ("k") ("HS256") (tokenPayload ("u1") ("u1@x.com") 0 []))
    (jsMapSet [] ("u1:u1@x.com")
      ⟨signJWT ("k") ("HS256") (tokenPayload ("u1") ("u1@x.com") 0 []), 86400000⟩)
    ⟨signJWT ("k") ("HS256") (tokenPayload ("u1") ("u1@x.com") 0 []), 86400000⟩
    (by rfl) (by decide) (by decide)

/-- C9: the composite cache key joins the two identity fields with a literal
colon and no escaping, so distinct identities can collide (for example
userId `"a:b"` with email `"c"` and userId `"a"` with email `"b:c"`); and for
every colliding pair, a call for the second identity within the first
cache validity window of the first identity returns its cached
token. -/
theorem tokenCache_key_collision :
    (∃ u1 e1 u2 e2 : String,
      (u1, e1) ≠ (u2, e2) ∧ u1 ++ (":") ++ e1 = u2 ++ (":") ++ e2) ∧
    (∀ (u1 e1 u2 e2 : String) (secretKeyEnv algorithmEnv : Option String)
       (t1 t2 : Nat) (extra1 extra2 : List (String × JValue))
       (cache : TokenCache) (tok : String) (cache2 : TokenCache)
       (c : CacheEntry),
       (u1, e1) ≠ (u2, e2) →
       u1 ++ (":") ++ e1 = u2 ++ (":") ++ e2 →
       generateJWTToken secretKeyEnv algorithmEnv t1 u1 e1 extra1 cache =
         Except.ok (tok, cache2) →
       jsMapGet cache2 (u1 ++ (":") ++ e1) = some c →
       t2 < c.expiresAt →
       generateJWTToken secretKeyEnv algorithmEnv t2 u2 e2 extra2 cache2 =
         Except.ok (tok, cache2)) := by
  constructor
  · exact ⟨("a:b"), ("c"), ("a"), ("b:c"), by decide, by decide⟩
  · intro u1 e1 u2 e2 sk alg t1 t2 x1 x2 cache tok cache2 c hne hkey h1 hc hv
    obtain ⟨c0, hc0, htok⟩ := generateJWTToken_ok_cache h1
    have hcc : c0 = c := by
      rw [hc0] at hc
      exact (Option.some.injEq _ _).mp hc
    subst hcc
    have hc2 : jsMapGet cache2 (u2 ++ (":") ++ e2) = some c0 := by
      rw [← hkey]; exact hc0
    have hit := generateJWTToken_hit sk alg t2 u2 e2 x2 cache2 c0
      (generateJWTToken_ok_key h1) hc2 hv
    rw [htok] at hit
    exact hit

theorem tokenCache_key_collision_witness :
    generateJWTToken (some ("k")) none 5 ("a") ("b:c") []
      (jsMapSet [] ("a:b:c")
        ⟨signJWT ("k") ("HS256") (tokenPayload ("a:b") ("c") 0 []), 86400000⟩) =
    Except.ok
      (signJWT ("k") ("HS256") (tokenPayload ("a:b") ("c") 0 []),
       jsMapSet [] ("a:b:c")
         ⟨signJWT ("k") ("HS256") (tokenPayload ("a:b") ("c") 0 []), 86400000⟩) :=
  tokenCache_key_collision.2 ("a:b") ("c") ("a") ("b:c") (some ("k")) none 0 5
    [] [] []
    (signJWT ("k") ("HS256") (tokenPayload ("a:b") ("c") 0 []))
    (jsMapSet [] ("a:b:c")
      ⟨signJWT ("k") ("HS256") (tokenPayload ("a:b") ("c") 0 []), 86400000⟩)
    ⟨signJWT ("k") ("HS256") (tokenPayload ("a:b") ("c") 0 []), 86400000⟩
    (by decide) (by decide) (by rfl) (by decide) (by decide)

theorem endsWithSlash_append_slash (s : String) :
    endsWithSlash (s ++ ("/")) = true := by
  have hd : (("/") : String).data = [('/')] := rfl
  simp [endsWithSlash, String.data_append, hd]

theorem dropLast1_append_slash (s : String) :
    dropLast1 (s ++ ("/")) = s := by
  have hd : (("/") : String).data = [('/')] := rfl
  simp [dropLast1, String.data_append, hd]

/-- C7: the LangConnect URL rewriter strips exactly one trailing slash from
the base path, so rewriting against a base whose path carries one extra
trailing slash yields the same outbound URL as rewriting against the base
without it, for every residual path and search string. -/
theorem buildTargetUrl_trailing_slash_invariant (base : ModelURL)
    (reqSearch : String) (path : List String)
    (h : endsWithSlash base.pathname = false) :
    buildTargetUrl (some ⟨base.scheme, base.host, base.pathname ++ ("/"), base.query⟩)
      reqSearch path =
    buildTargetUrl (some base) reqSearch path := by
  simp [buildTargetUrl, endsWithSlash_append_slash, dropLast1_append_slash, h,
    setPathname, setSearch]

theorem buildTargetUrl_trailing_slash_invariant_witness :
    buildTargetUrl (some ⟨("http"), ("x"), ("/y") ++ ("/"), ("")⟩) ("?a=1") [("foo")] =
    buildTargetUrl (some ⟨("http"), ("x"), ("/y"), ("")⟩) ("?a=1") [("foo")] :=
  buildTargetUrl_trailing_slash_invariant ⟨("http"), ("x"), ("/y"), ("")⟩
    ("?a=1") [("foo")] (by decide)

/-- C6 (code defect at proxy-request.ts line 69): the MCP proxy appends the
inbound search string to the value assigned to `URL.pathname`, whose WHATWG
setter percent-encodes the question mark into the path; the outbound URL
therefore has an empty query component and a mangled path instead of the
query appended verbatim.  The LangConnect rewriter (third conjunct) does set
the query component and preserves the search string. -/
theorem mcpTargetUrl_query_lost :
    mcpTargetUrl ⟨("http"), ("backend"), ("/"), ("")⟩ ("/api/oap_mcp/foo") ("?a=1") =
      ⟨("http"), ("backend"), ("/mcp/foo%3Fa=1"), ("")⟩ ∧
    urlSearchString
      (mcpTargetUrl ⟨("http"), ("backend"), ("/"), ("")⟩ ("/api/oap_mcp/foo") ("?a=1")) ≠
      ("?a=1") ∧
    (buildTargetUrl (some ⟨("http"), ("backend"), ("/api"), ("")⟩) ("?a=1")
      [("foo")]).map urlSearchString = Except.ok ("?a=1") := by
  refine ⟨by decide, by decide, ?_⟩
  rfl

/-- C8: deployment resolution is total and collapses both failure modes to
the same `none`: a first path segment that does not validate as a UUID, and
a valid UUID that matches no registry record, both resolve to not-found; no
parse error is possible (the function is total by construction). -/
theorem getDeploymentUrl_not_found (registry : List Deployment)
    (firstSeg : String) (rest : List String)
    (h : isValidUUID firstSeg = false ∨ ∀ d ∈ registry, d.id ≠ firstSeg) :
    getDeploymentUrl registry (firstSeg :: rest) = none := by
  cases hv : isValidUUID firstSeg with
  | false => simp [getDeploymentUrl, hv]
  | true =>
    cases h with
    | inl h => rw [h] at hv; cases hv
    | inr h =>
      have hfind : registry.find? (fun d => d.id == firstSeg) = none := by
        rw [List.find?_eq_none]
        intro d hd
        simp [h d hd]
      simp [getDeploymentUrl, hv, hfind]

theorem getDeploymentUrl_not_found_witness :
    getDeploymentUrl [⟨("123e4567-e89b-12d3-a456-426614174000"), ("http://d1")⟩]
      [("zzz")] = none ∧
    getDeploymentUrl [⟨("123e4567-e89b-12d3-a456-426614174000"), ("http://d1")⟩]
      [("123e4567-e89b-12d3-a456-426614174001")] = none :=
  ⟨getDeploymentUrl_not_found _ _ _ (Or.inl (by decide)),
   getDeploymentUrl_not_found _ _ _ (Or.inr (by decide))⟩

/-- C2 counterexample: with the feature flag off, a request whose first path
segment is not a valid UUID receives the 404 not-found response, not the 403
not-enabled response — the handler checks deployment resolution before the
flag. -/
theorem langgraphGET_flag_off_counterexample :
    langgraphGET none [] [("zz")] none none none none none 0 [] =
      RouteOutcome.resp 404 ("Deployment not found") ∧
    RouteOutcome.resp 404 ("Deployment not found") ≠
      RouteOutcome.resp 403 ("Proxy route not enabled") := by
  decide

/-- C2 (amended): when the feature flag is disabled, a request whose
deployment resolution succeeds receives the fixed 403 not-enabled response
(before any authentication), but a request whose resolution fails receives
the 404 not-found response regardless of the flag — resolution is checked
first. -/
theorem langgraphGET_flag_disabled (useLangsmithAuthEnv : Option String)
    (registry : List Deployment) (path : List String)
    (supabaseUrl supabaseKey jwtSecretKey jwtAlgorithm : Option String)
    (session : Option SessionUser) (nowMs : Nat) (cache : TokenCache)
    (hflag : isProxyRouteEnabled useLangsmithAuthEnv = false) :
    ((getDeploymentUrl registry path).isSome →
      langgraphGET useLangsmithAuthEnv registry path supabaseUrl supabaseKey
        jwtSecretKey jwtAlgorithm session nowMs cache =
        RouteOutcome.resp 403 ("Proxy route not enabled")) ∧
    (getDeploymentUrl registry path = none →
      langgraphGET useLangsmithAuthEnv registry path supabaseUrl supabaseKey
        jwtSecretKey jwtAlgorithm session nowMs cache =
        RouteOutcome.resp 404 ("Deployment not found")) := by
  constructor
  · intro hs
    cases hd : getDeploymentUrl registry path with
    | none => rw [hd] at hs; cases hs
    | some r =>
      cases r with
      | mk baseRoute url => simp [langgraphGET, hd, hflag]
  · intro hn
    simp [langgraphGET, hn]

theorem langgraphGET_flag_disabled_witness :
    langgraphGET none [⟨("123e4567-e89b-12d3-a456-426614174000"), ("http://d1")⟩]
      [("123e4567-e89b-12d3-a456-426614174000")] none none none none none 0 [] =
      RouteOutcome.resp 403 ("Proxy route not enabled") ∧
    langgraphGET none [⟨("123e4567-e89b-12d3-a456-426614174000"), ("http://d1")⟩]
      [("zzz")] none none none none none 0 [] =
      RouteOutcome.resp 404 ("Deployment not found") :=
  ⟨(langgraphGET_flag_disabled none
      [⟨("123e4567-e89b-12d3-a456-426614174000"), ("http://d1")⟩]
      [("123e4567-e89b-12d3-a456-426614174000")] none none none none none 0 []
      (by decide)).1 (by decide),
   (langgraphGET_flag_disabled none
      [⟨("123e4567-e89b-12d3-a456-426614174000"), ("http://d1")⟩]
      [("zzz")] none none none none none 0 []
      (by decide)).2 (by decide)⟩

/-- A forwarded MCP outcome always carries exactly the method-selected body. -/
theorem proxyRequest_forward_body {env : McpEnv}
    {method reqPathname reqSearch : String} {inBody : Option String}
    {session : Option SessionUser} {nowMs : Nat} {cache : TokenCache}
    {url tok : String} {ob : Option String} {cache2 : TokenCache}
    (h : proxyRequest env method reqPathname reqSearch inBody session nowMs
      cache = McpOutcome.forward url tok ob cache2) :
    ob = mcpForwardBody method inBody := by
  cases henv : env.mcpServerUrl with
  | none => simp [proxyRequest, henv] at h
  | some base =>
    cases hsu : getSupabaseUser env.supabaseUrl env.supabaseKey session with
    | none => simp [proxyRequest, henv, hsu] at h
    | some user =>
      cases hgen : generateJWTToken env.jwtSecretKey env.jwtAlgorithm nowMs
          user.id (routeEmail user) (routeExtraClaims user) cache with
      | error e => simp [proxyRequest, henv, hsu, hgen] at h
      | ok r =>
        cases r with
        | mk token c2 =>
          simp only [proxyRequest, henv, hsu, hgen] at h
          exact (McpOutcome.forward.injEq _ _ _ _ _ _ _ _ |>.mp h).2.2.1.symm

/-- A forwarded LangConnect outcome always carries exactly the
method-selected body. -/
theorem langconnectHandler_forward_body {apiBase : Option ModelURL}
    {sU sK skE aE : Option String} {method reqSearch : String}
    {path : List String} {inBody : Option String}
    {session : Option SessionUser} {nowMs : Nat} {cache : TokenCache}
    {url tok : String} {ob : Option String} {cache2 : TokenCache}
    (h : langconnectHandler apiBase sU sK skE aE method reqSearch path inBody
      session nowMs cache = LcOutcome.forward url tok ob cache2) :
    ob = langconnectForwardBody method inBody := by
  cases hb : buildTargetUrl apiBase reqSearch path with
  | error msg => simp [langconnectHandler, hb] at h
  | ok tu =>
    cases hsu : getSupabaseUser sU sK session with
    | none => simp [langconnectHandler, hb, hsu] at h
    | some user =>
      cases hgen : generateJWTToken skE aE nowMs user.id (routeEmail user)
          (routeExtraClaims user) cache with
      | error e => simp [langconnectHandler, hb, hsu, hgen] at h
      | ok r =>
        cases r with
        | mk token c2 =>
          simp only [langconnectHandler, hb, hsu, hgen] at h
          exact (LcOutcome.forward.injEq _ _ _ _ _ _ _ _ |>.mp h).2.2.1.symm

/-- C4 counterexample: the MCP proxy forwards the inbound body on an OPTIONS
request (only GET and HEAD are excluded there), contradicting the claim that
no forwarder ever sends a body for OPTIONS. -/
theorem proxyRequest_options_body_counterexample :
    mcpForwardedBody
      (proxyRequest
        ⟨some ⟨("http"), ("b"), ("/"), ("")⟩, some ("su"), some ("sk"),
          some ("k"), none⟩
        ("OPTIONS") ("/api/oap_mcp/x") ("") (some ("payload"))
        (some ⟨("u"), ("e@x"), ("N")⟩) 0 []) = some (some ("payload")) ∧
    some (some ("payload")) ≠ (none : Option (Option String)) := by
  decide

/-- C4 (amended): the LangConnect forwarders send no body for GET, HEAD and
OPTIONS and forward the inbound body for every other method; the MCP
forwarder sends no body only for GET and HEAD and forwards the inbound body
for every other method — in particular on OPTIONS, where the claim said no
body is sent. -/
theorem forward_body_policy :
    (∀ (env : McpEnv) (method reqPathname reqSearch : String)
       (inBody : Option String) (session : Option SessionUser) (nowMs : Nat)
       (cache : TokenCache) (url tok : String) (ob : Option String)
       (cache2 : TokenCache),
       (method = ("GET") ∨ method = ("HEAD")) →
       proxyRequest env method reqPathname reqSearch inBody session nowMs
         cache = McpOutcome.forward url tok ob cache2 → ob = none) ∧
    (∀ (env : McpEnv) (method reqPathname reqSearch : String)
       (inBody : Option String) (session : Option SessionUser) (nowMs : Nat)
       (cache : TokenCache) (url tok : String) (ob : Option String)
       (cache2 : TokenCache),
       method ≠ ("GET") → method ≠ ("HEAD") →
       proxyRequest env method reqPathname reqSearch inBody session nowMs
         cache = McpOutcome.forward url tok ob cache2 → ob = inBody) ∧
    (∀ (apiBase : Option ModelURL) (sU sK skE aE : Option String)
       (method reqSearch : String) (path : List String)
       (inBody : Option String) (session : Option SessionUser) (nowMs : Nat)
       (cache : TokenCache) (url tok : String) (ob : Option String)
       (cache2 : TokenCache),
       (method = ("GET") ∨ method = ("HEAD") ∨ method = ("OPTIONS")) →
       langconnectHandler apiBase sU sK skE aE method reqSearch path inBody
         session nowMs cache = LcOutcome.forward url tok ob cache2 →
       ob = none) ∧
    (∀ (apiBase : Option ModelURL) (sU sK skE aE : Option String)
       (method reqSearch : String) (path : List String)
       (inBody : Option String) (session : Option SessionUser) (nowMs : Nat)
       (cache : TokenCache) (url tok : String) (ob : Option String)
       (cache2 : TokenCache),
       method ≠ ("GET") → method ≠ ("HEAD") → method ≠ ("OPTIONS") →
       langconnectHandler apiBase sU sK skE aE method reqSearch path inBody
         session nowMs cache = LcOutcome.forward url tok ob cache2 →
       ob = inBody) := by
  refine ⟨?_, ?_, ?_, ?_⟩
  · intro env m p s b sess t cache url tok ob c2 hm h
    rw [proxyRequest_forward_body h]
    cases hm with
    | inl hm => subst hm; simp [mcpForwardBody]
    | inr hm => subst hm; simp [mcpForwardBody]
  · intro env m p s b sess t cache url tok ob c2 hg hh h
    rw [proxyRequest_forward_body h]
    simp [mcpForwardBody, hg, hh]
  · intro apiBase sU sK skE aE m s path b sess t cache url tok ob c2 hm h
    rw [langconnectHandler_forward_body h]
    rcases hm with hm | hm | hm <;> subst hm <;> simp [langconnectForwardBody]
  · intro apiBase sU sK skE aE m s path b sess t cache url tok ob c2 hg hh ho h
    rw [langconnectHandler_forward_body h]
    simp [langconnectForwardBody, hg, hh, ho]

theorem forward_body_policy_witness :
    mcpForwardBody ("GET") (some ("payload")) = none ∧
    mcpForwardBody ("OPTIONS") (some ("payload")) = some ("payload") ∧
    mcpForwardBody ("POST") (some ("payload")) = some ("payload") ∧
    langconnectForwardBody ("OPTIONS") (some ("payload")) = none ∧
    langconnectForwardBody ("POST") (some ("payload")) = some ("payload") := by
  refine
    ⟨forward_body_policy.1
        ⟨some ⟨("http"), ("b"), ("/"), ("")⟩, some ("su"), some ("sk"),
          some ("k"), none⟩
        ("GET") ("/x") ("") (some ("payload")) (some ⟨("u"), ("e@x"), ("N")⟩)
        0 [] _ _ _ _ (Or.inl rfl) rfl,
      forward_body_policy.2.1
        ⟨some ⟨("http"), ("b"), ("/"), ("")⟩, some ("su"), some ("sk"),
          some ("k"), none⟩
        ("OPTIONS") ("/x") ("") (some ("payload"))
        (some ⟨("u"), ("e@x"), ("N")⟩) 0 [] _ _ _ _
        (by decide) (by decide) rfl,
      forward_body_policy.2.1
        ⟨some ⟨("http"), ("b"), ("/"), ("")⟩, some ("su"), some ("sk"),
          some ("k"), none⟩
        ("POST") ("/x") ("") (some ("payload"))
        (some ⟨("u"), ("e@x"), ("N")⟩) 0 [] _ _ _ _
        (by decide) (by decide) rfl,
      forward_body_policy.2.2.1 (some ⟨("http"), ("b"), ("/api"), ("")⟩)
        (some ("su")) (some ("sk")) (some ("k")) none ("OPTIONS") ("")
        [("foo")] (some ("payload")) (some ⟨("u"), ("e@x"), ("N")⟩) 0 []
        _ _ _ _ (Or.inr (Or.inr rfl)) rfl,
      forward_body_policy.2.2.2 (some ⟨("http"), ("b"), ("/api"), ("")⟩)
        (some ("su")) (some ("sk")) (some ("k")) none ("POST") ("")
        [("foo")] (some ("payload")) (some ⟨("u"), ("e@x"), ("N")⟩) 0 []
        _ _ _ _ (by decide) (by decide) (by decide) rfl⟩

/-- C3 counterexample: in the multi-tenant LangGraph route, a request with a
resolvable deployment, the flag enabled and a resolved session identity whose
token issuance fails (signing key absent) is answered 401 Authentication
required, not the 500 the claim requires — `addJWTAuthHeader` collapses the
issuance failure into null. -/
theorem langgraphGET_signing_failure_counterexample :
    langgraphGET (some ("true"))
      [⟨("123e4567-e89b-12d3-a456-426614174000"), ("http://d1")⟩]
      [("123e4567-e89b-12d3-a456-426614174000")] (some ("su")) (some ("sk"))
      none none (some ⟨("u"), ("e@x"), ("N")⟩) 0 [] =
      RouteOutcome.resp 401 ("Authentication required") ∧
    RouteOutcome.resp 401 ("Authentication required") ≠
      RouteOutcome.resp 500 ("Failed to generate authentication token") := by
  decide

/-- C3 (amended): in the MCP proxy and the authenticated LangConnect route,
token-issuance failure after a resolved identity is a 500 `Failed to
generate authentication token`, distinct from the 401 `Authentication
required` of a missing session; in the multi-tenant LangGraph route, by
contrast, an issuance failure is reported as the same 401 as a missing
session (the two cases are conflated there). -/
theorem auth_error_status_codes :
    (∀ (env : McpEnv) (base : ModelURL) (method p s : String)
       (b : Option String) (sess : Option SessionUser) (user : SessionUser)
       (t : Nat) (cache : TokenCache) (e : String),
       env.mcpServerUrl = some base →
       getSupabaseUser env.supabaseUrl env.supabaseKey sess = some user →
       generateJWTToken env.jwtSecretKey env.jwtAlgorithm t user.id
         (routeEmail user) (routeExtraClaims user) cache = Except.error e →
       proxyRequest env method p s b sess t cache =
         McpOutcome.err 500 ("Failed to generate authentication token")) ∧
    (∀ (env : McpEnv) (base : ModelURL) (method p s : String)
       (b : Option String) (sess : Option SessionUser) (t : Nat)
       (cache : TokenCache),
       env.mcpServerUrl = some base →
       getSupabaseUser env.supabaseUrl env.supabaseKey sess = none →
       proxyRequest env method p s b sess t cache =
         McpOutcome.err 401 ("Authentication required")) ∧
    (∀ (apiBase : ModelURL) (sU sK skE aE : Option String) (method s : String)
       (path : List String) (b : Option String) (sess : Option SessionUser)
       (user : SessionUser) (t : Nat) (cache : TokenCache) (e : String),
       getSupabaseUser sU sK sess = some user →
       generateJWTToken skE aE t user.id (routeEmail user)
         (routeExtraClaims user) cache = Except.error e →
       langconnectHandler (some apiBase) sU sK skE aE method s path b sess t
         cache = LcOutcome.resp 500 ("Failed to generate authentication token")) ∧
    (∀ (apiBase : ModelURL) (sU sK skE aE : Option String) (method s : String)
       (path : List String) (b : Option String) (sess : Option SessionUser)
       (t : Nat) (cache : TokenCache),
       getSupabaseUser sU sK sess = none →
       langconnectHandler (some apiBase) sU sK skE aE method s path b sess t
         cache = LcOutcome.resp 401 ("Authentication required")) ∧
    (∀ (flagEnv : Option String) (registry : List Deployment)
       (path : List String) (sU sK skE aE : Option String)
       (sess : Option SessionUser) (user : SessionUser) (t : Nat)
       (cache : TokenCache) (e : String) (r : String × String),
       getDeploymentUrl registry path = some r →
       isProxyRouteEnabled flagEnv = true →
       getSupabaseUser sU sK sess = some user →
       generateJWTToken skE aE t user.id (routeEmail user)
         (routeExtraClaims user) cache = Except.error e →
       langgraphGET flagEnv registry path sU sK skE aE sess t cache =
         RouteOutcome.resp 401 ("Authentication required")) := by
  refine ⟨?_, ?_, ?_, ?_, ?_⟩
  · intro env base m p s b sess user t cache e hbase hsu hgen
    simp [proxyRequest, hbase, hsu, hgen]
  · intro env base m p s b sess t cache hbase hsu
    simp [proxyRequest, hbase, hsu]
  · intro apiBase sU sK skE aE m s path b sess user t cache e hsu hgen
    simp [langconnectHandler, buildTargetUrl, hsu, hgen]
  · intro apiBase sU sK skE aE m s path b sess t cache hsu
    simp [langconnectHandler, buildTargetUrl, hsu]
  · intro flagEnv registry path sU sK skE aE sess user t cache e r hd hflag hsu hgen
    cases r with
    | mk baseRoute url =>
      simp [langgraphGET, hd, hflag, addJWTAuthHeader, hsu, hgen]

theorem auth_error_status_codes_witness :
    proxyRequest
      ⟨some ⟨("http"), ("b"), ("/"), ("")⟩, some ("su"), some ("sk"), none, none⟩
      ("GET") ("/x") ("") none (some ⟨("u"), ("e@x"), ("N")⟩) 0 [] =
      McpOutcome.err 500 ("Failed to generate authentication token") ∧
    proxyRequest
      ⟨some ⟨("http"), ("b"), ("/"), ("")⟩, some ("su"), some ("sk"),
        some ("k"), none⟩
      ("GET") ("/x") ("") none none 0 [] =
      McpOutcome.err 401 ("Authentication required") ∧
    langconnectHandler (some ⟨("http"), ("b"), ("/api"), ("")⟩) (some ("su"))
      (some ("sk")) none none ("GET") ("") [("foo")] none
      (some ⟨("u"), ("e@x"), ("N")⟩) 0 [] =
      LcOutcome.resp 500 ("Failed to generate authentication token") ∧
    langconnectHandler (some ⟨("http"), ("b"), ("/api"), ("")⟩) (some ("su"))
      (some ("sk")) none none ("GET") ("") [("foo")] none none 0 [] =
      LcOutcome.resp 401 ("Authentication required") ∧
    langgraphGET (some ("true"))
      [⟨("123e4567-e89b-12d3-a456-426614174001"), ("http://d1")⟩]
      [("123e4567-e89b-12d3-a456-426614174001")] (some ("su")) (some ("sk"))
      none none (some ⟨("u"), ("e@x"), ("N")⟩) 0 [] =
      RouteOutcome.resp 401 ("Authentication required") :=
  ⟨auth_error_status_codes.1
      ⟨some ⟨("http"), ("b"), ("/"), ("")⟩, some ("su"), some ("sk"), none, none⟩
      ⟨("http"), ("b"), ("/"), ("")⟩ ("GET") ("/x") ("") none
      (some ⟨("u"), ("e@x"), ("N")⟩) ⟨("u"), ("e@x"), ("N")⟩ 0 []
      ("JWT_SECRET_KEY environment variable is not set") rfl rfl rfl,
   auth_error_status_codes.2.1
      ⟨some ⟨("http"), ("b"), ("/"), ("")⟩, some ("su"), some ("sk"),
        some ("k"), none⟩
      ⟨("http"), ("b"), ("/"), ("")⟩ ("GET") ("/x") ("") none none 0 [] rfl rfl,
   auth_error_status_codes.2.2.1 ⟨("http"), ("b"), ("/api"), ("")⟩
      (some ("su")) (some ("sk")) none none ("GET") ("") [("foo")] none
      (some ⟨("u"), ("e@x"), ("N")⟩) ⟨("u"), ("e@x"), ("N")⟩ 0 []
      ("JWT_SECRET_KEY environment variable is not set") rfl rfl,
   auth_error_status_codes.2.2.2.1 ⟨("http"), ("b"), ("/api"), ("")⟩
      (some ("su")) (some ("sk")) none none ("GET") ("") [("foo")] none none
      0 [] rfl,
   auth_error_status_codes.2.2.2.2
      (some ("true")) [⟨("123e4567-e89b-12d3-a456-426614174001"), ("http://d1")⟩]
      [("123e4567-e89b-12d3-a456-426614174001")] (some ("su")) (some ("sk"))
      none none (some ⟨("u"), ("e@x"), ("N")⟩) ⟨("u"), ("e@x"), ("N")⟩ 0 []
      ("JWT_SECRET_KEY environment variable is not set")
      ((("langgraph/proxy/") ++ ("123e4567-e89b-12d3-a456-426614174001")), ("http://d1"))
      (by decide) rfl rfl rfl⟩

/-- An absent identity-provider configuration makes the identity lookup
return null without consulting the session. -/
theorem getSupabaseUser_missing_config (supabaseUrl supabaseKey : Option String)
    (session : Option SessionUser)
    (h : supabaseUrl = none ∨ supabaseKey = none) :
    getSupabaseUser supabaseUrl supabaseKey session = none := by
  cases h with
  | inl h => subst h; simp [getSupabaseUser]
  | inr h => subst h; simp [getSupabaseUser]

/-- C10: on every authenticated proxy route, an absent Supabase URL or
anonymous key makes identity resolution return no user, and the request is
answered 401 `Authentication required` — not a 500 configuration error —
whenever the earlier checks of the route pass (the MCP server URL is set, the
LangConnect base URL is set, or the deployment resolves with the flag on). -/
theorem missing_identity_provider_config_is_401 :
    (∀ (env : McpEnv) (base : ModelURL) (method p s : String)
       (b : Option String) (sess : Option SessionUser) (t : Nat)
       (cache : TokenCache),
       env.mcpServerUrl = some base →
       (env.supabaseUrl = none ∨ env.supabaseKey = none) →
       proxyRequest env method p s b sess t cache =
         McpOutcome.err 401 ("Authentication required")) ∧
    (∀ (apiBase : ModelURL) (sU sK skE aE : Option String) (method s : String)
       (path : List String) (b : Option String) (sess : Option SessionUser)
       (t : Nat) (cache : TokenCache),
       (sU = none ∨ sK = none) →
       langconnectHandler (some apiBase) sU sK skE aE method s path b sess t
         cache = LcOutcome.resp 401 ("Authentication required")) ∧
    (∀ (flagEnv : Option String) (registry : List Deployment)
       (path : List String) (sU sK skE aE : Option String)
       (sess : Option SessionUser) (t : Nat) (cache : TokenCache)
       (r : String × String),
       getDeploymentUrl registry path = some r →
       isProxyRouteEnabled flagEnv = true →
       (sU = none ∨ sK = none) →
       langgraphGET flagEnv registry path sU sK skE aE sess t cache =
         RouteOutcome.resp 401 ("Authentication required")) := by
  refine ⟨?_, ?_, ?_⟩
  · intro env base m p s b sess t cache hbase hmiss
    simp [proxyRequest, hbase,
      getSupabaseUser_missing_config env.supabaseUrl env.supabaseKey sess hmiss]
  · intro apiBase sU sK skE aE m s path b sess t cache hmiss
    simp [langconnectHandler, buildTargetUrl,
      getSupabaseUser_missing_config sU sK sess hmiss]
  · intro flagEnv registry path sU sK skE aE sess t cache r hd hflag hmiss
    cases r with
    | mk baseRoute url =>
      simp [langgraphGET, hd, hflag, addJWTAuthHeader,
        getSupabaseUser_missing_config sU sK sess hmiss]

theorem missing_identity_provider_config_is_401_witness :
    proxyRequest
      ⟨some ⟨("http"), ("b"), ("/"), ("")⟩, none, some ("sk"), some ("k"), none⟩
      ("GET") ("/x") ("") none (some ⟨("u"), ("e@x"), ("N")⟩) 0 [] =
      McpOutcome.err 401 ("Authentication required") ∧
    langconnectHandler (some ⟨("http"), ("b"), ("/api"), ("")⟩) none
      (some ("sk")) (some ("k")) none ("GET") ("") [("foo")] none
      (some ⟨("u"), ("e@x"), ("N")⟩) 0 [] =
      LcOutcome.resp 401 ("Authentication required") ∧
    langgraphGET (some ("true"))
      [⟨("123e4567-e89b-12d3-a456-426614174001"), ("http://d1")⟩]
      [("123e4567-e89b-12d3-a456-426614174001")] none (some ("sk"))
      (some ("k")) none (some ⟨("u"), ("e@x"), ("N")⟩) 0 [] =
      RouteOutcome.resp 401 ("Authentication required") :=
  ⟨missing_identity_provider_config_is_401.1
      ⟨some ⟨("http"), ("b"), ("/"), ("")⟩, none, some ("sk"), some ("k"), none⟩
      ⟨("http"), ("b"), ("/"), ("")⟩ ("GET") ("/x") ("") none
      (some ⟨("u"), ("e@x"), ("N")⟩) 0 [] rfl (Or.inl rfl),
   missing_identity_provider_config_is_401.2.1
      ⟨("http"), ("b"), ("/api"), ("")⟩ none (some ("sk")) (some ("k")) none
      ("GET") ("") [("foo")] none (some ⟨("u"), ("e@x"), ("N")⟩) 0 []
      (Or.inl rfl),
   missing_identity_provider_config_is_401.2.2
      (some ("true")) [⟨("123e4567-e89b-12d3-a456-426614174001"), ("http://d1")⟩]
      [("123e4567-e89b-12d3-a456-426614174001")] none (some ("sk"))
      (some ("k")) none (some ⟨("u"), ("e@x"), ("N")⟩) 0 []
      ((("langgraph/proxy/") ++ ("123e4567-e89b-12d3-a456-426614174001")), ("http://d1"))
      (by decide) rfl (Or.inl rfl)⟩

end OAP
